import Mathlib

/-!
Verification of tcping (src/tcping.c) against its specification.

The program is a single `main`: parse options with getopt("qt:u:"), resolve
the host with gethostbyname, create a non-blocking TCP socket, connect, and
either succeed immediately or wait with select(2) and read SO_ERROR.  We embed
`main` shallowly as a total function from the command line and an oracle of
OS responses to a run result recording the exit code, the messages printed,
and which OS actions were performed.
-/

namespace Tcping

/-- Linux value of EINPROGRESS; the code compares `errno != EINPROGRESS`. -/
def EINPROGRESS : Nat := 115

/-- Linux value of EBADF, the errno connect(2) yields on an invalid fd. -/
def EBADF : Nat := 9

/-- Linux value of ENETUNREACH, a representative fatal connect errno. -/
def ENETUNREACH : Nat := 101

/-- Result of `connect(2)` as the program observes it: return 0, or -1 with
an errno. -/
inductive ConnectRes where
  | ok : ConnectRes
  | fail (errno : Nat) : ConnectRes
deriving DecidableEq, Repr

/-- Result of `select(2)` as the program observes it: `timedOut` is return
value 0 (only possible when a non-NULL timeout was supplied); `ready r w`
covers every nonzero return, with `r`/`w` the FD_ISSET bits of `fdrset` and
`fdwset` afterwards. -/
inductive SelectRes where
  | timedOut : SelectRes
  | ready (r w : Bool) : SelectRes
deriving DecidableEq, Repr

/-- Result of `getsockopt(SOL_SOCKET, SO_ERROR)`: failure with an errno, or
success delivering the pending socket error. -/
inductive SockoptRes where
  | fail (errno : Nat) : SockoptRes
  | ok (soError : Nat) : SockoptRes
deriving DecidableEq, Repr

/-- The OS responses a single run can observe.  `sockFd` and `fcntlRet` are
the return values of `socket(2)` and `fcntl(2)`; the source stores the first
and ignores the second, and never branches on either. -/
structure Oracle where
  resolveOk : Bool
  sockFd : Int
  fcntlRet : Int
  conn : ConnectRes
  sel : SelectRes
  sockopt : SockoptRes
deriving DecidableEq, Repr

/-- The messages printed through the verbosity-gated `log` macro.  Messages
carry the raw argv strings the source passes to printf (`argv[optind]` and
`argv[optind + 1]`); error messages carry the errno whose strerror text is
interpolated. -/
inductive Ev where
  | errResolve : Ev
  | errConnect (host port : String) (errno : Nat) : Ev
  | msgTimeout (host port : String) : Ev
  | errGetsockopt (host port : String) (errno : Nat) : Ev
  | msgClosed (host port : String) : Ev
  | errNotReady : Ev
  | msgOpen (host port : String) : Ev
deriving DecidableEq, Repr

/-- Exact text of the stdout determination messages (format strings at lines
121, 136, 148 of the source).  stderr messages interpolate strerror output and
are left abstract. -/
def Ev.render : Ev → Option String
  | .msgTimeout h p => some (h ++ " port " ++ p ++ " user timeout.\n")
  | .msgClosed h p => some (h ++ " port " ++ p ++ " closed.\n")
  | .msgOpen h p => some (h ++ " port " ++ p ++ " open.\n")
  | _ => none

/-- True on the timeout message only; used to state that a run cannot time
out. -/
def Ev.isTimeoutMsg : Ev → Bool
  | .msgTimeout _ _ => true
  | _ => false

/-- The observable outcome of one run of `main`: the raw return value (the
process exit status is its low byte), the verbosity-gated messages on each
stream, whether `usage()` printed (it is not verbosity-gated), and a trace of
the OS actions performed. -/
structure RunResult where
  exit : Int
  stdout : List Ev
  stderr : List Ev
  usagePrinted : Bool
  resolved : Bool
  socketCreated : Bool
  connectCalled : Bool
  selectCalled : Bool
  deadlineArg : Option (Int × Int)
  socketClosed : Bool
  probedPort : Option Int
  ub : Bool
deriving DecidableEq, Repr

/-- The process exit status the OS reports: the low byte of the value passed
to exit/return, so -1 becomes 255. -/
def exitStatus (r : RunResult) : Nat := (Int.emod r.exit 256).toNat

/-- The `log` macro (lines 16-20): print only when verbosity is nonzero. -/
def log (verbosity : Bool) (e : Ev) : List Ev := if verbosity then [e] else []

/-- Empty trace; fields are filled in as the corresponding action happens. -/
def baseResult : RunResult :=
  { exit := 0, stdout := [], stderr := [], usagePrinted := false,
    resolved := false, socketCreated := false, connectCalled := false,
    selectCalled := false, deadlineArg := none, socketClosed := false,
    probedPort := none, ub := false }

/-- The function usage() (lines 153-160): unconditionally print usage to stderr and
exit(-1). -/
def usageExit (r : RunResult) : RunResult :=
  { r with exit := -1, usagePrinted := true }

/-! ### strtol -/

/-- isspace characters skipped by strtol. -/
def isSpaceChar (c : Char) : Bool :=
  c = ' ' || c = '\t' || c = '\n' || c = '\r' ||
  c = Char.ofNat 11 || c = Char.ofNat 12

/-- Drop the leading whitespace strtol skips. -/
def dropSpaces : List Char → List Char
  | [] => []
  | c :: cs => if isSpaceChar c then dropSpaces cs else c :: cs

/-- The leading run of decimal digits. -/
def takeDigits : List Char → List Char
  | [] => []
  | c :: cs => if c.isDigit then c :: takeDigits cs else []

/-- Value of a digit string. -/
def digitsToNat (l : List Char) : Nat :=
  l.foldl (fun n c => 10 * n + (c.toNat - 48)) 0

/-- The numeral value after an optional sign, or `none` when no digit
follows. -/
def signedDigits : List Char → Option Int
  | [] => none
  | c :: cs =>
    if c = '-' then
      match takeDigits cs with
      | [] => none
      | ds => some (-(digitsToNat ds : Int))
    else if c = '+' then
      match takeDigits cs with
      | [] => none
      | ds => some ((digitsToNat ds : Int))
    else
      match takeDigits (c :: cs) with
      | [] => none
      | ds => some ((digitsToNat ds : Int))

/-- The call strtol(optarg, &cptr, 10) as the source uses it: `none` exactly when `end`
stays at `s` (no digits consumed after optional whitespace and sign, the
`cptr == optarg` test), otherwise the value of the leading numeral, ignoring
trailing characters.  `long` overflow clamping is not modelled; values are
mathematical integers. -/
def strtol10 (s : List Char) : Option Int := signedDigits (dropSpaces s)

/-! ### getopt("qt:u:") -/

/-- The mutable state the option loop accumulates (lines 48-79). -/
structure ParseSt where
  verbosity : Bool
  tsec : Int
  tusec : Int
deriving DecidableEq, Repr

/-- Initial option state: verbose, both timeout parts 0 (lines 48, 51). -/
def initSt : ParseSt := { verbosity := true, tsec := 0, tusec := 0 }

/-- Outcome of scanning one option cluster. -/
inductive ClusterOut where
  | done (st : ParseSt) : ClusterOut
  | argNext (which : Char) (st : ParseSt) : ClusterOut
  | argInline (which : Char) (arg : List Char) (st : ParseSt) : ClusterOut
  | bad : ClusterOut
deriving DecidableEq, Repr

/-- Scan one getopt option cluster (the characters after the leading dash):
`q` clears verbosity; `t`/`u` take an argument, either the remaining cluster
characters or the next argv entry; any other character is an unknown option
(getopt yields a question mark, hitting the `default:` usage case). -/
def scanCluster : List Char → ParseSt → ClusterOut
  | [], st => .done st
  | c :: cs, st =>
    if c = 'q' then scanCluster cs { st with verbosity := false }
    else if c = 't' then
      if cs.isEmpty then .argNext 't' st else .argInline 't' cs st
    else if c = 'u' then
      if cs.isEmpty then .argNext 'u' st else .argInline 'u' cs st
    else .bad

/-- Store the parsed value of a `-t` or `-u` option. -/
def setOpt (which : Char) (v : Int) (st : ParseSt) : ParseSt :=
  if which = 't' then { st with tsec := v } else { st with tusec := v }

/-- The getopt(3) loop over `argv[1:]` with option string "qt:u:" (POSIX
behaviour: scanning stops at the first non-option argument or after a
bare double-dash).  `none` when the loop calls `usage` — unknown option,
missing option argument, or a `-t`/`-u` value from which strtol consumes no
digits (lines 66-67, 72-73, 76) — otherwise the final option state and the
positional arguments `argv[optind:]`. -/
def parseOpts : List String → ParseSt → Option (ParseSt × List String)
  | [], st => some (st, [])
  | a :: rest, st =>
    match a.data with
    | [] => some (st, a :: rest)
    | [_] => some (st, a :: rest)
    | c :: c2 :: cs =>
      if c = '-' then
        if c2 = '-' ∧ cs = [] then some (st, rest)
        else
          match scanCluster (c2 :: cs) st with
          | .done st2 => parseOpts rest st2
          | .argInline w arg st2 =>
            match strtol10 arg with
            | none => none
            | some v => parseOpts rest (setOpt w v st2)
          | .argNext w st2 =>
            match rest with
            | [] => none
            | arg :: rest2 =>
              match strtol10 arg.data with
              | none => none
              | some v => parseOpts rest2 (setOpt w v st2)
          | .bad => none
      else some (st, a :: rest)

/-! ### The timeout computation and the probe -/

/-- Lines 113-114: the timeval handed to select.  C `/` and `%` on `long`
truncate toward zero, which is `Int.tdiv`/`Int.tmod`. -/
def timevalOf (tsec tusec : Int) : Int × Int :=
  (tsec + Int.tdiv tusec 1000000, Int.tmod tusec 1000000)

/-- Lines 116-118: the fifth select argument — the timeval when
`tv_sec + tv_usec > 0`, otherwise NULL (`none`). -/
def deadlineOf (tsec tusec : Int) : Option (Int × Int) :=
  if 0 < (timevalOf tsec tusec).1 + (timevalOf tsec tusec).2 then
    some (timevalOf tsec tusec)
  else none

/-- Lines 100-150: socket creation through the end of `main`.  `port` is the
parsed port value; `htons(port)` truncates the int to 16 bits, recorded in
`probedPort`.  The socket() and fcntl() return values are not parameters
because the source never branches on them. -/
def probeStage (st : ParseSt) (hostArg portArg : String) (port : Int)
    (conn : ConnectRes) (sel : SelectRes) (so : SockoptRes) : RunResult :=
  let v := st.verbosity
  let base := { baseResult with
    resolved := true, socketCreated := true, connectCalled := true,
    probedPort := some (Int.emod port 65536) }
  match conn with
  | .ok =>
    -- connect returned 0: fall through to line 146, close, print open, exit 0
    { base with
      exit := 0,
      socketClosed := true,
      stdout := log v (.msgOpen hostArg portArg) }
  | .fail e =>
    if e ≠ EINPROGRESS then
      -- lines 103-107: fatal connect error; note: no close before return
      { base with exit := -1, stderr := log v (.errConnect hostArg portArg e) }
    else
      let dl := deadlineOf st.tsec st.tusec
      let base2 := { base with selectCalled := true, deadlineArg := dl }
      match sel with
      | .timedOut =>
        -- lines 118-123: close, print timeout, exit 2
        { base2 with
          exit := 2,
          socketClosed := true,
          stdout := log v (.msgTimeout hostArg portArg) }
      | .ready r w =>
        if r || w then
          match so with
          | .fail e2 =>
            -- lines 127-134: getsockopt failed: print, close, exit -1
            { base2 with
              exit := -1,
              socketClosed := true,
              stderr := log v (.errGetsockopt hostArg portArg e2) }
          | .ok soErr =>
            if soErr ≠ 0 then
              -- lines 135-139: pending error: print closed, close, exit 1
              { base2 with
                exit := 1,
                socketClosed := true,
                stdout := log v (.msgClosed hostArg portArg) }
            else
              -- fall through to line 146: close, print open, exit 0
              { base2 with
                exit := 0,
                socketClosed := true,
                stdout := log v (.msgOpen hostArg portArg) }
        else
          -- lines 141-144: defensive branch; exit(-1) without close
          { base2 with exit := -1, stderr := log v .errNotReady }

/-- Lines 83-98: name resolution, then the port argument.  `gethostbyname`
is called on `argv[optind]` before the port positional is examined; when
`argv[optind]` is NULL (no positional at all) the call is undefined
behaviour, recorded by the `ub` flag. -/
def afterParse (st : ParseSt) (pos : List String) (resolveOk : Bool)
    (conn : ConnectRes) (sel : SelectRes) (so : SockoptRes) : RunResult :=
  match pos with
  | [] => { baseResult with resolved := true, exit := -1, ub := true }
  | hostArg :: pos2 =>
    if resolveOk then
      match pos2 with
      | [] => usageExit { baseResult with resolved := true }
      | portArg :: _ =>
        match strtol10 portArg.data with
        | none => usageExit { baseResult with resolved := true }
        | some port => probeStage st hostArg portArg port conn sel so
    else
      -- lines 84-85: resolver error to stderr (log-gated), exit(-1)
      { baseResult with
        resolved := true,
        exit := -1,
        stderr := log st.verbosity .errResolve }

/-- The whole of `main` (lines 37-151).  `argv` includes the program name at
the head, so `argc = argv.length`. -/
def tcpingMain (argv : List String) (os : Oracle) : RunResult :=
  if argv.length < 3 then usageExit baseResult
  else
    match parseOpts argv.tail initSt with
    | none => usageExit baseResult
    | some (st, pos) => afterParse st pos os.resolveOk os.conn os.sel os.sockopt

/-! ### Helper lemmas -/

/-- A run that passes the argc check, parses its options, has two positional
arguments, a numeric port, and a resolvable host, is the probe stage. -/
theorem run_probe (argv : List String) (os : Oracle) (st : ParseSt)
    (host portStr : String) (rest : List String) (port : Int)
    (hlen : ¬ argv.length < 3)
    (hparse : parseOpts argv.tail initSt = some (st, host :: portStr :: rest))
    (hport : strtol10 portStr.data = some port)
    (hres : os.resolveOk = true) :
    tcpingMain argv os =
      probeStage st host portStr port os.conn os.sel os.sockopt := by
  simp only [tcpingMain, if_neg hlen, hparse, afterParse, hres, if_true, hport]

/-- Helper: the result of a run whose connect fails with an errno other than
EINPROGRESS (lines 103-107). -/
theorem run_connect_error (argv : List String) (os : Oracle)
    (st : ParseSt) (host portStr : String) (rest : List String)
    (port : Int) (e : Nat)
    (hlen : ¬ argv.length < 3)
    (hparse : parseOpts argv.tail initSt = some (st, host :: portStr :: rest))
    (hport : strtol10 portStr.data = some port)
    (hres : os.resolveOk = true)
    (hconn : os.conn = ConnectRes.fail e)
    (hne : e ≠ EINPROGRESS) :
    (tcpingMain argv os).exit = -1 ∧
    exitStatus (tcpingMain argv os) = 255 ∧
    (tcpingMain argv os).stderr = log st.verbosity (Ev.errConnect host portStr e) ∧
    (tcpingMain argv os).stdout = [] ∧
    (tcpingMain argv os).selectCalled = false ∧
    (tcpingMain argv os).connectCalled = true := by
  rw [run_probe argv os st host portStr rest port hlen hparse hport hres]
  unfold probeStage
  rw [hconn]
  refine ?_
  simp [hne, exitStatus, baseResult]
  decide

/-- Helper: a run that reaches the probe stage creates the socket. -/
theorem run_socket_created (argv : List String) (os : Oracle)
    (st : ParseSt) (host portStr : String) (rest : List String) (port : Int)
    (hlen : ¬ argv.length < 3)
    (hparse : parseOpts argv.tail initSt = some (st, host :: portStr :: rest))
    (hport : strtol10 portStr.data = some port)
    (hres : os.resolveOk = true) :
    (tcpingMain argv os).socketCreated = true := by
  rw [run_probe argv os st host portStr rest port hlen hparse hport hres]
  unfold probeStage
  cases os.conn with
  | ok => rfl
  | fail e =>
    by_cases he : e = EINPROGRESS
    · subst he
      simp only [ne_eq, not_true_eq_false, if_false, ite_not, if_pos rfl]
      cases os.sel with
      | timedOut => rfl
      | ready r w =>
        cases r <;> cases w <;> simp [baseResult] <;>
          cases os.sockopt with
          | fail e2 => rfl
          | ok soErr => by_cases hso : soErr = 0 <;> simp [hso, baseResult]
    · simp [he, baseResult]

/-- The two execution paths on which the source exits without closing the
socket: a connect failure with errno other than EINPROGRESS (lines 103-107),
and the defensive branch where select returns nonzero but neither FD_ISSET
bit is set (lines 141-144). -/
def leakPath (os : Oracle) : Bool :=
  match os.conn with
  | .ok => false
  | .fail e =>
    if e = EINPROGRESS then
      match os.sel with
      | .ready false false => true
      | _ => false
    else true

/-! ### C1: socket cleanup -/

/-- A concrete oracle: resolution succeeds and connect fails fatally with
ENETUNREACH. -/
def osConnFail : Oracle :=
  { resolveOk := true, sockFd := 3, fcntlRet := 0,
    conn := .fail ENETUNREACH, sel := .ready true true, sockopt := .ok 0 }

/-- C1, counterexample: on the fatal connect-error path (errno ENETUNREACH,
not EINPROGRESS) the source returns -1 at line 106 without calling close, so
a run that reaches socket creation exits with the socket still open —
contradicting the claim that every such path closes the descriptor. -/
theorem socket_cleanup_cex :
    (tcpingMain ["tcping", "h", "80"] osConnFail).socketCreated = true ∧
    (tcpingMain ["tcping", "h", "80"] osConnFail).socketClosed = false ∧
    exitStatus (tcpingMain ["tcping", "h", "80"] osConnFail) = 255 := by
  decide

/-- C1, amended: on every path that reaches socket creation, the socket is
closed before exit on the open, closed, timeout and getsockopt-failure paths,
and is NOT closed on exactly the fatal connect-error path and the defensive
not-ready branch (`leakPath`). -/
theorem socket_cleanup_amended (argv : List String) (os : Oracle)
    (st : ParseSt) (host portStr : String) (rest : List String) (port : Int)
    (hlen : ¬ argv.length < 3)
    (hparse : parseOpts argv.tail initSt = some (st, host :: portStr :: rest))
    (hport : strtol10 portStr.data = some port)
    (hres : os.resolveOk = true) :
    (tcpingMain argv os).socketCreated = true ∧
    (tcpingMain argv os).socketClosed = !leakPath os := by
  rw [run_probe argv os st host portStr rest port hlen hparse hport hres]
  unfold probeStage leakPath
  cases os.conn with
  | ok => simp
  | fail e =>
    by_cases he : e = EINPROGRESS
    · subst he
      cases os.sel with
      | timedOut => simp
      | ready r w =>
        cases r <;> cases w <;> simp [baseResult] <;>
          cases os.sockopt with
          | fail e2 => simp
          | ok soErr => by_cases hso : soErr = 0 <;> simp [hso]
    · simp [he, baseResult]

/-- Witness for `socket_cleanup_amended`: a run whose connect succeeds
immediately does close the socket. -/
theorem socket_cleanup_amended_witness :
    (tcpingMain ["tcping", "h", "80"] { osConnFail with conn := .ok }).socketCreated = true ∧
    (tcpingMain ["tcping", "h", "80"] { osConnFail with conn := .ok }).socketClosed =
      !leakPath { osConnFail with conn := .ok } :=
  socket_cleanup_amended ["tcping", "h", "80"] _ initSt "h" "80" [] 80
    (by decide) (by decide) (by decide) (by decide)

/-! ### C5: fatal connect errors -/

/-- C5: when connect fails with an errno other than EINPROGRESS, the program
prints an error to stderr (unless quiet), exits with -1 (status 255), and
never calls select — there is no retry and no wait. -/
theorem connect_error_fatal (argv : List String) (os : Oracle)
    (st : ParseSt) (host portStr : String) (rest : List String)
    (port : Int) (e : Nat)
    (hlen : ¬ argv.length < 3)
    (hparse : parseOpts argv.tail initSt = some (st, host :: portStr :: rest))
    (hport : strtol10 portStr.data = some port)
    (hres : os.resolveOk = true)
    (hconn : os.conn = ConnectRes.fail e)
    (hne : e ≠ EINPROGRESS) :
    (tcpingMain argv os).exit = -1 ∧
    exitStatus (tcpingMain argv os) = 255 ∧
    (tcpingMain argv os).stderr = log st.verbosity (Ev.errConnect host portStr e) ∧
    (tcpingMain argv os).stdout = [] ∧
    (tcpingMain argv os).selectCalled = false ∧
    (tcpingMain argv os).connectCalled = true :=
  run_connect_error argv os st host portStr rest port e
    hlen hparse hport hres hconn hne

/-- Witness for `connect_error_fatal` at a concrete invocation. -/
theorem connect_error_fatal_witness :
    (tcpingMain ["tcping", "h", "80"] osConnFail).exit = -1 ∧
    exitStatus (tcpingMain ["tcping", "h", "80"] osConnFail) = 255 ∧
    (tcpingMain ["tcping", "h", "80"] osConnFail).stderr =
      log initSt.verbosity (Ev.errConnect "h" "80" ENETUNREACH) ∧
    (tcpingMain ["tcping", "h", "80"] osConnFail).stdout = [] ∧
    (tcpingMain ["tcping", "h", "80"] osConnFail).selectCalled = false ∧
    (tcpingMain ["tcping", "h", "80"] osConnFail).connectCalled = true :=
  connect_error_fatal ["tcping", "h", "80"] osConnFail initSt "h" "80" [] 80
    ENETUNREACH (by decide) (by decide) (by decide) (by decide) (by decide)
    (by decide)

/-! ### C7: resolution failure -/

/-- C7: when the hostname fails to resolve, the program prints the resolver
error to stderr (unless quiet) and exits with -1 (status 255), and no socket
is ever created. -/
theorem resolution_failure (argv : List String) (os : Oracle)
    (st : ParseSt) (host : String) (pos2 : List String)
    (hlen : ¬ argv.length < 3)
    (hparse : parseOpts argv.tail initSt = some (st, host :: pos2))
    (hres : os.resolveOk = false) :
    (tcpingMain argv os).exit = -1 ∧
    exitStatus (tcpingMain argv os) = 255 ∧
    (tcpingMain argv os).resolved = true ∧
    (tcpingMain argv os).stderr = log st.verbosity Ev.errResolve ∧
    (tcpingMain argv os).stdout = [] ∧
    (tcpingMain argv os).socketCreated = false ∧
    (tcpingMain argv os).connectCalled = false := by
  simp only [tcpingMain, if_neg hlen, hparse, afterParse, hres]
  simp [exitStatus, baseResult]
  decide

/-- Witness for `resolution_failure` at a concrete invocation. -/
theorem resolution_failure_witness :
    (tcpingMain ["tcping", "nohost", "80"] { osConnFail with resolveOk := false }).exit = -1 ∧
    exitStatus (tcpingMain ["tcping", "nohost", "80"] { osConnFail with resolveOk := false }) = 255 ∧
    (tcpingMain ["tcping", "nohost", "80"] { osConnFail with resolveOk := false }).resolved = true ∧
    (tcpingMain ["tcping", "nohost", "80"] { osConnFail with resolveOk := false }).stderr =
      log initSt.verbosity Ev.errResolve ∧
    (tcpingMain ["tcping", "nohost", "80"] { osConnFail with resolveOk := false }).stdout = [] ∧
    (tcpingMain ["tcping", "nohost", "80"] { osConnFail with resolveOk := false }).socketCreated = false ∧
    (tcpingMain ["tcping", "nohost", "80"] { osConnFail with resolveOk := false }).connectCalled = false :=
  resolution_failure ["tcping", "nohost", "80"] _ initSt "nohost" ["80"]
    (by decide) (by decide) (by decide)

/-! ### C2: timeout semantics -/

/-- C2: with a pending non-blocking connect, when the combined timeout
(seconds plus microseconds, after the carry of lines 113-114) is exactly
zero, select is called with a NULL deadline and the run can never produce
the timeout outcome (select(2) returns 0 only when handed a finite timeout,
hypothesis `hsel`); when the combined timeout is positive and the deadline
elapses, the program prints the timeout message to stdout (unless quiet) and
exits with code 2. -/
theorem timeout_semantics (argv : List String) (os : Oracle)
    (st : ParseSt) (host portStr : String) (rest : List String) (port : Int)
    (hlen : ¬ argv.length < 3)
    (hparse : parseOpts argv.tail initSt = some (st, host :: portStr :: rest))
    (hport : strtol10 portStr.data = some port)
    (hres : os.resolveOk = true)
    (hconn : os.conn = ConnectRes.fail EINPROGRESS)
    (hsel : os.sel = SelectRes.timedOut →
      (deadlineOf st.tsec st.tusec).isSome = true) :
    ((timevalOf st.tsec st.tusec).1 + (timevalOf st.tsec st.tusec).2 = 0 →
      (tcpingMain argv os).selectCalled = true ∧
      (tcpingMain argv os).deadlineArg = none ∧
      (tcpingMain argv os).exit ≠ 2 ∧
      (tcpingMain argv os).stdout.all (fun ev => !ev.isTimeoutMsg) = true) ∧
    (0 < (timevalOf st.tsec st.tusec).1 + (timevalOf st.tsec st.tusec).2 →
      os.sel = SelectRes.timedOut →
      (tcpingMain argv os).exit = 2 ∧
      exitStatus (tcpingMain argv os) = 2 ∧
      (tcpingMain argv os).stdout = log st.verbosity (Ev.msgTimeout host portStr) ∧
      Ev.render (Ev.msgTimeout host portStr) =
        some (host ++ " port " ++ portStr ++ " user timeout.\n")) := by
  rw [run_probe argv os st host portStr rest port hlen hparse hport hres]
  unfold probeStage
  rw [hconn]
  simp only [ne_eq, not_true_eq_false, if_false, ite_not, if_pos rfl]
  constructor
  · intro hzero
    have hdl : deadlineOf st.tsec st.tusec = none := by
      unfold deadlineOf
      rw [if_neg]
      omega
    have hnotto : os.sel ≠ SelectRes.timedOut := by
      intro h
      rw [hdl] at hsel
      exact absurd (hsel h) (by decide)
    cases hs : os.sel with
    | timedOut => exact absurd hs hnotto
    | ready r w =>
      cases r <;> cases w <;>
        simp [hdl, baseResult, Ev.isTimeoutMsg] <;>
        cases os.sockopt with
        | fail e2 => simp [Ev.isTimeoutMsg]
        | ok soErr =>
          by_cases hso : soErr = 0 <;> simp [hso, log, Ev.isTimeoutMsg]
  · intro hpos hto
    have hdl : deadlineOf st.tsec st.tusec = some (timevalOf st.tsec st.tusec) := by
      unfold deadlineOf
      rw [if_pos hpos]
    rw [hto]
    exact ⟨rfl, by show (Int.emod 2 256).toNat = 2; decide, rfl, rfl⟩

/-- Witness for `timeout_semantics`: the zero-timeout branch at `-t 0 -u 0`
with a socket that becomes ready, and the (vacuous here) positive branch. -/
theorem timeout_semantics_witness :
    ((timevalOf initSt.tsec initSt.tusec).1 + (timevalOf initSt.tsec initSt.tusec).2 = 0 →
      (tcpingMain ["tcping", "-t", "0", "-u", "0", "h", "80"] { osConnFail with conn := .fail EINPROGRESS }).selectCalled = true ∧
      (tcpingMain ["tcping", "-t", "0", "-u", "0", "h", "80"] { osConnFail with conn := .fail EINPROGRESS }).deadlineArg = none ∧
      (tcpingMain ["tcping", "-t", "0", "-u", "0", "h", "80"] { osConnFail with conn := .fail EINPROGRESS }).exit ≠ 2 ∧
      (tcpingMain ["tcping", "-t", "0", "-u", "0", "h", "80"] { osConnFail with conn := .fail EINPROGRESS }).stdout.all (fun ev => !ev.isTimeoutMsg) = true) ∧
    (0 < (timevalOf initSt.tsec initSt.tusec).1 + (timevalOf initSt.tsec initSt.tusec).2 →
      ({ osConnFail with conn := .fail EINPROGRESS } : Oracle).sel = SelectRes.timedOut →
      (tcpingMain ["tcping", "-t", "0", "-u", "0", "h", "80"] { osConnFail with conn := .fail EINPROGRESS }).exit = 2 ∧
      exitStatus (tcpingMain ["tcping", "-t", "0", "-u", "0", "h", "80"] { osConnFail with conn := .fail EINPROGRESS }) = 2 ∧
      (tcpingMain ["tcping", "-t", "0", "-u", "0", "h", "80"] { osConnFail with conn := .fail EINPROGRESS }).stdout = log initSt.verbosity (Ev.msgTimeout "h" "80") ∧
      Ev.render (Ev.msgTimeout "h" "80") = some ("h" ++ " port " ++ "80" ++ " user timeout.\n")) :=
  timeout_semantics ["tcping", "-t", "0", "-u", "0", "h", "80"]
    { osConnFail with conn := .fail EINPROGRESS } initSt "h" "80" [] 80
    (by decide) (by decide) (by decide) (by decide) (by decide) (by decide)

/-! ### C3: open / closed outcome resolution -/

/-- C3: an immediately successful connect prints the open message (unless
quiet) and exits 0; after a pending connect whose socket becomes ready, a
non-zero SO_ERROR prints the closed message (unless quiet) and exits 1, and a
zero SO_ERROR prints the open message (unless quiet) and exits 0. -/
theorem outcome_resolution (argv : List String) (os : Oracle)
    (st : ParseSt) (host portStr : String) (rest : List String) (port : Int)
    (rb wb : Bool) (soErr : Nat)
    (hlen : ¬ argv.length < 3)
    (hparse : parseOpts argv.tail initSt = some (st, host :: portStr :: rest))
    (hport : strtol10 portStr.data = some port)
    (hres : os.resolveOk = true) :
    (os.conn = ConnectRes.ok →
      (tcpingMain argv os).exit = 0 ∧
      exitStatus (tcpingMain argv os) = 0 ∧
      (tcpingMain argv os).stdout = log st.verbosity (Ev.msgOpen host portStr) ∧
      Ev.render (Ev.msgOpen host portStr) =
        some (host ++ " port " ++ portStr ++ " open.\n")) ∧
    (os.conn = ConnectRes.fail EINPROGRESS →
      os.sel = SelectRes.ready rb wb → (rb || wb) = true →
      os.sockopt = SockoptRes.ok soErr →
      ((soErr ≠ 0 →
         (tcpingMain argv os).exit = 1 ∧
         exitStatus (tcpingMain argv os) = 1 ∧
         (tcpingMain argv os).stdout = log st.verbosity (Ev.msgClosed host portStr) ∧
         Ev.render (Ev.msgClosed host portStr) =
           some (host ++ " port " ++ portStr ++ " closed.\n")) ∧
       (soErr = 0 →
         (tcpingMain argv os).exit = 0 ∧
         exitStatus (tcpingMain argv os) = 0 ∧
         (tcpingMain argv os).stdout = log st.verbosity (Ev.msgOpen host portStr)))) := by
  rw [run_probe argv os st host portStr rest port hlen hparse hport hres]
  unfold probeStage
  constructor
  · intro hconn
    rw [hconn]
    exact ⟨rfl, by show (Int.emod 0 256).toNat = 0; decide, rfl, rfl⟩
  · intro hconn hsel hrw hso
    rw [hconn, hsel, hso]
    simp only [ne_eq, not_true_eq_false, if_false, ite_not, if_pos rfl, hrw, if_true]
    constructor
    · intro hne
      rw [if_neg (by simpa using hne)]
      exact ⟨rfl, by show (Int.emod 1 256).toNat = 1; decide, rfl, rfl⟩
    · intro hz
      rw [if_pos hz]
      exact ⟨rfl, by show (Int.emod 0 256).toNat = 0; decide, rfl⟩

/-- Witness for `outcome_resolution`: closed outcome on a ready socket with
pending error ECONNREFUSED (111). -/
theorem outcome_resolution_witness :
    (({ osConnFail with conn := .fail EINPROGRESS, sel := .ready true true, sockopt := .ok 111 } : Oracle).conn = ConnectRes.ok →
      (tcpingMain ["tcping", "h", "80"] { osConnFail with conn := .fail EINPROGRESS, sel := .ready true true, sockopt := .ok 111 }).exit = 0 ∧
      exitStatus (tcpingMain ["tcping", "h", "80"] { osConnFail with conn := .fail EINPROGRESS, sel := .ready true true, sockopt := .ok 111 }) = 0 ∧
      (tcpingMain ["tcping", "h", "80"] { osConnFail with conn := .fail EINPROGRESS, sel := .ready true true, sockopt := .ok 111 }).stdout = log initSt.verbosity (Ev.msgOpen "h" "80") ∧
      Ev.render (Ev.msgOpen "h" "80") = some ("h" ++ " port " ++ "80" ++ " open.\n")) ∧
    (({ osConnFail with conn := .fail EINPROGRESS, sel := .ready true true, sockopt := .ok 111 } : Oracle).conn = ConnectRes.fail EINPROGRESS →
      ({ osConnFail with conn := .fail EINPROGRESS, sel := .ready true true, sockopt := .ok 111 } : Oracle).sel = SelectRes.ready true true →
      (true || true) = true →
      ({ osConnFail with conn := .fail EINPROGRESS, sel := .ready true true, sockopt := .ok 111 } : Oracle).sockopt = SockoptRes.ok 111 →
      ((111 ≠ 0 →
         (tcpingMain ["tcping", "h", "80"] { osConnFail with conn := .fail EINPROGRESS, sel := .ready true true, sockopt := .ok 111 }).exit = 1 ∧
         exitStatus (tcpingMain ["tcping", "h", "80"] { osConnFail with conn := .fail EINPROGRESS, sel := .ready true true, sockopt := .ok 111 }) = 1 ∧
         (tcpingMain ["tcping", "h", "80"] { osConnFail with conn := .fail EINPROGRESS, sel := .ready true true, sockopt := .ok 111 }).stdout = log initSt.verbosity (Ev.msgClosed "h" "80") ∧
         Ev.render (Ev.msgClosed "h" "80") = some ("h" ++ " port " ++ "80" ++ " closed.\n")) ∧
       (111 = 0 →
         (tcpingMain ["tcping", "h", "80"] { osConnFail with conn := .fail EINPROGRESS, sel := .ready true true, sockopt := .ok 111 }).exit = 0 ∧
         exitStatus (tcpingMain ["tcping", "h", "80"] { osConnFail with conn := .fail EINPROGRESS, sel := .ready true true, sockopt := .ok 111 }) = 0 ∧
         (tcpingMain ["tcping", "h", "80"] { osConnFail with conn := .fail EINPROGRESS, sel := .ready true true, sockopt := .ok 111 }).stdout = log initSt.verbosity (Ev.msgOpen "h" "80")))) :=
  outcome_resolution ["tcping", "h", "80"]
    { osConnFail with conn := .fail EINPROGRESS, sel := .ready true true, sockopt := .ok 111 }
    initSt "h" "80" [] 80 true true 111
    (by decide) (by decide) (by decide) (by decide)

/-! ### C9: no port range validation -/

/-- C9: the port argument is never checked against 1-65535; `htons(port)`
reduces the parsed value modulo 2^16, so any numeric port argument is probed
at its 16-bit truncation (65536 probes port 0, negative values wrap), with no
usage error. -/
theorem port_truncation (argv : List String) (os : Oracle)
    (st : ParseSt) (host portStr : String) (rest : List String) (port : Int)
    (hlen : ¬ argv.length < 3)
    (hparse : parseOpts argv.tail initSt = some (st, host :: portStr :: rest))
    (hport : strtol10 portStr.data = some port)
    (hres : os.resolveOk = true) :
    (tcpingMain argv os).probedPort = some (Int.emod port 65536) ∧
    (tcpingMain argv os).usagePrinted = false ∧
    (tcpingMain argv os).socketCreated = true ∧
    Int.emod 65536 65536 = 0 ∧
    Int.emod (-1) 65536 = 65535 := by
  rw [run_probe argv os st host portStr rest port hlen hparse hport hres]
  unfold probeStage
  refine ⟨?_, ?_, ?_, by decide, by decide⟩ <;>
    (cases os.conn with
     | ok => rfl
     | fail e =>
       by_cases he : e = EINPROGRESS
       · subst he
         simp only [ne_eq, not_true_eq_false, if_false, ite_not, if_pos rfl]
         cases os.sel with
         | timedOut => rfl
         | ready r w =>
           cases r <;> cases w <;> simp [baseResult] <;>
             cases os.sockopt with
             | fail e2 => rfl
             | ok soErr => by_cases hso : soErr = 0 <;> simp [hso, baseResult]
       · simp [he, baseResult])

/-- Witness for `port_truncation`: the port argument 65536 is accepted and
probed as port 0. -/
theorem port_truncation_witness :
    (tcpingMain ["tcping", "h", "65536"] osConnFail).probedPort = some (Int.emod 65536 65536) ∧
    (tcpingMain ["tcping", "h", "65536"] osConnFail).usagePrinted = false ∧
    (tcpingMain ["tcping", "h", "65536"] osConnFail).socketCreated = true ∧
    Int.emod 65536 65536 = 0 ∧
    Int.emod (-1) 65536 = 65535 :=
  port_truncation ["tcping", "h", "65536"] osConnFail initSt "h" "65536" [] 65536
    (by decide) (by decide) (by decide) (by decide)

/-! ### C10: socket() and fcntl() return values unchecked -/

/-- C10: the run is entirely independent of the socket() and fcntl() return
values (the source stores the first into `sockfd` and drops the second, and
branches on neither), and when socket creation fails (fd -1, so connect(2)
fails with EBADF, which is not EINPROGRESS) the failure surfaces through the
fatal connect-error branch with exit -1 (status 255) — there is no distinct
socket-creation error report. -/
theorem unchecked_socket_fd :
    (∀ (argv : List String) (os : Oracle) (fd fr : Int),
      tcpingMain argv { os with sockFd := fd, fcntlRet := fr } = tcpingMain argv os) ∧
    (∀ (argv : List String) (os : Oracle) (st : ParseSt)
       (host portStr : String) (rest : List String) (port : Int),
      ¬ argv.length < 3 →
      parseOpts argv.tail initSt = some (st, host :: portStr :: rest) →
      strtol10 portStr.data = some port →
      os.resolveOk = true →
      os.sockFd = -1 →
      os.conn = ConnectRes.fail EBADF →
      (tcpingMain argv os).exit = -1 ∧
      exitStatus (tcpingMain argv os) = 255 ∧
      (tcpingMain argv os).stderr = log st.verbosity (Ev.errConnect host portStr EBADF) ∧
      (tcpingMain argv os).selectCalled = false ∧
      (tcpingMain argv os).socketCreated = true ∧
      EBADF ≠ EINPROGRESS) := by
  constructor
  · intro argv os fd fr
    cases os
    rfl
  · intro argv os st host portStr rest port hlen hparse hport hres hfd hconn
    have h := run_connect_error argv os st host portStr rest port EBADF
      hlen hparse hport hres hconn (by decide)
    have hsock : (tcpingMain argv os).socketCreated = true :=
      run_socket_created argv os st host portStr rest port hlen hparse hport hres
    exact ⟨h.1, h.2.1, h.2.2.1, h.2.2.2.2.1, hsock, by decide⟩

/-- A concrete oracle for a failed socket(): fd -1 and connect refusing with
EBADF. -/
def osBadFd : Oracle :=
  { resolveOk := true, sockFd := -1, fcntlRet := -1,
    conn := .fail EBADF, sel := .ready true true, sockopt := .ok 0 }

/-- Witness for `unchecked_socket_fd`: a run with a failed socket() exits
through the connect-error branch. -/
theorem unchecked_socket_fd_witness :
    (tcpingMain ["tcping", "h", "80"] osBadFd).exit = -1 ∧
    exitStatus (tcpingMain ["tcping", "h", "80"] osBadFd) = 255 ∧
    (tcpingMain ["tcping", "h", "80"] osBadFd).stderr =
      log initSt.verbosity (Ev.errConnect "h" "80" EBADF) ∧
    (tcpingMain ["tcping", "h", "80"] osBadFd).selectCalled = false ∧
    (tcpingMain ["tcping", "h", "80"] osBadFd).socketCreated = true ∧
    EBADF ≠ EINPROGRESS :=
  unchecked_socket_fd.2 ["tcping", "h", "80"] osBadFd initSt "h" "80" [] 80
    (by decide) (by decide) (by decide) (by decide) (by decide) (by decide)

/-! ### C6: microsecond carry -/

/-- Helper: the probe stage depends on the option state only through the
verbosity flag and the computed select deadline. -/
theorem probeStage_congr (st st2 : ParseSt) (host portStr : String)
    (port : Int) (conn : ConnectRes) (sel : SelectRes) (so : SockoptRes)
    (hv : st.verbosity = st2.verbosity)
    (hd : deadlineOf st.tsec st.tusec = deadlineOf st2.tsec st2.tusec) :
    probeStage st host portStr port conn sel so =
      probeStage st2 host portStr port conn sel so := by
  unfold probeStage
  rw [hv, hd]

/-- C6: microseconds beyond 1,000,000 carry into seconds.  The timeval handed
to select is exactly (s + u/10^6, u mod 10^6) with C truncating division; as
a duration in microseconds it equals s*10^6 + u for all integer inputs; and
the two invocations `-t 1 -u 1500000` and `-t 2 -u 500000` produce identical
runs against every oracle. -/
theorem microsecond_carry :
    (∀ s u : Int,
      timevalOf s u = (s + Int.tdiv u 1000000, Int.tmod u 1000000)) ∧
    (∀ s u : Int,
      (timevalOf s u).1 * 1000000 + (timevalOf s u).2 = s * 1000000 + u) ∧
    timevalOf 1 1500000 = timevalOf 2 500000 ∧
    (∀ os : Oracle,
      tcpingMain ["tcping", "-t", "1", "-u", "1500000", "example.com", "80"] os =
      tcpingMain ["tcping", "-t", "2", "-u", "500000", "example.com", "80"] os) := by
  refine ⟨fun s u => rfl, ?_, by decide, ?_⟩
  · intro s u
    have h := Int.tdiv_add_tmod u 1000000
    unfold timevalOf
    dsimp only
    omega
  · intro os
    have h1 : tcpingMain ["tcping", "-t", "1", "-u", "1500000", "example.com", "80"] os =
        afterParse { verbosity := true, tsec := 1, tusec := 1500000 }
          ["example.com", "80"] os.resolveOk os.conn os.sel os.sockopt := rfl
    have h2 : tcpingMain ["tcping", "-t", "2", "-u", "500000", "example.com", "80"] os =
        afterParse { verbosity := true, tsec := 2, tusec := 500000 }
          ["example.com", "80"] os.resolveOk os.conn os.sel os.sockopt := rfl
    rw [h1, h2]
    unfold afterParse
    cases os.resolveOk with
    | false => rfl
    | true =>
      simp only [if_true]
      exact probeStage_congr _ _ "example.com" "80" 80 os.conn os.sel os.sockopt
        rfl (by decide)

/-! ### C4: argument validation -/

/-- The invocations claim C4 describes: fewer than two positional arguments
(but with a host present — with no positional at all, `gethostbyname(NULL)`
is undefined behaviour, not a usage exit), or a non-numeric port or timeout
value. -/
def badInvocation (argv : List String) : Bool :=
  decide (argv.length < 3) ||
  (match parseOpts argv.tail initSt with
   | none => true
   | some (_, []) => false
   | some (_, [_]) => true
   | some (_, _ :: p :: _) => (strtol10 p.data).isNone)

/-- The bad invocations on which the source attempts name resolution before
reaching `usage`: those that pass the `argc < 3` check and the option loop
with at least one positional argument left. -/
def resolutionFirst (argv : List String) : Bool :=
  !(decide (argv.length < 3)) &&
  (match parseOpts argv.tail initSt with
   | some (_, _ :: _) => true
   | _ => false)

/-- C4, counterexample: `tcping -q h` has only one positional argument, yet
the run attempts name resolution (gethostbyname at line 83 runs before the
`argv[optind + 1]` check at line 90) — contradicting the claim that usage is
reached without attempting resolution. -/
theorem usage_validation_cex :
    badInvocation ["tcping", "-q", "h"] = true ∧
    (tcpingMain ["tcping", "-q", "h"] { osConnFail with conn := .ok }).resolved = true ∧
    (tcpingMain ["tcping", "-q", "h"] { osConnFail with conn := .ok }).usagePrinted = true ∧
    exitStatus (tcpingMain ["tcping", "-q", "h"] { osConnFail with conn := .ok }) = 255 := by
  decide

/-- C4, amended: a bad invocation (fewer than two positional arguments with a
host present, or non-numeric port or timeout) prints usage to stderr and
exits -1 (status 255) with no socket created and no connect attempted; but
name resolution is attempted first exactly when the invocation passes the
argc check and the option loop with a positional left (`resolutionFirst`) —
only invocations failing the argc check or the option loop skip resolution.
The hypothesis `hres` restricts to resolvable hosts: when resolution fails
the resolver error path (exit 255, no usage message) preempts usage. -/
theorem usage_validation_amended (argv : List String) (os : Oracle)
    (hres : os.resolveOk = true)
    (hbad : badInvocation argv = true) :
    (tcpingMain argv os).usagePrinted = true ∧
    (tcpingMain argv os).exit = -1 ∧
    exitStatus (tcpingMain argv os) = 255 ∧
    (tcpingMain argv os).socketCreated = false ∧
    (tcpingMain argv os).connectCalled = false ∧
    (tcpingMain argv os).resolved = resolutionFirst argv := by
  unfold badInvocation resolutionFirst at *
  by_cases hlen : argv.length < 3
  · simp only [tcpingMain, if_pos hlen]
    simp [hlen, usageExit, baseResult, exitStatus]
    decide
  · simp only [hlen, decide_False, Bool.false_or, Bool.not_false, Bool.true_and] at hbad ⊢
    simp only [tcpingMain, if_neg hlen]
    cases hp : parseOpts argv.tail initSt with
    | none =>
      simp [usageExit, baseResult, exitStatus]
      decide
    | some stpos =>
      obtain ⟨st, pos⟩ := stpos
      rw [hp] at hbad
      cases pos with
      | nil => simp at hbad
      | cons hostArg pos2 =>
        cases pos2 with
        | nil =>
          simp only [afterParse, hres, if_true]
          simp [usageExit, baseResult, exitStatus]
          decide
        | cons portArg rest =>
          simp only [Option.isNone_iff_eq_none] at hbad
          simp only [afterParse, hres, if_true, hbad]
          simp [usageExit, baseResult, exitStatus]
          decide

/-- Witness for `usage_validation_amended` at the invocation `tcping -q h`. -/
theorem usage_validation_amended_witness :
    (tcpingMain ["tcping", "-q", "h"] osConnFail).usagePrinted = true ∧
    (tcpingMain ["tcping", "-q", "h"] osConnFail).exit = -1 ∧
    exitStatus (tcpingMain ["tcping", "-q", "h"] osConnFail) = 255 ∧
    (tcpingMain ["tcping", "-q", "h"] osConnFail).socketCreated = false ∧
    (tcpingMain ["tcping", "-q", "h"] osConnFail).connectCalled = false ∧
    (tcpingMain ["tcping", "-q", "h"] osConnFail).resolved =
      resolutionFirst ["tcping", "-q", "h"] :=
  usage_validation_amended ["tcping", "-q", "h"] osConnFail (by decide) (by decide)

/-! ### C8: quiet mode -/

/-- Clear the verbosity flag inside a cluster-scan outcome. -/
def ClusterOut.quiet : ClusterOut → ClusterOut
  | .done st => .done { st with verbosity := false }
  | .argNext w st => .argNext w { st with verbosity := false }
  | .argInline w a st => .argInline w a { st with verbosity := false }
  | .bad => .bad

/-- Storing a timeout option value never touches the verbosity flag. -/
theorem setOpt_quiet (w : Char) (v : Int) (st : ParseSt) :
    setOpt w v { st with verbosity := false } =
      { setOpt w v st with verbosity := false } := by
  unfold setOpt
  by_cases hw : w = 't' <;> simp [hw]

/-- Scanning a cluster from a quiet state yields the quiet outcome. -/
theorem scanCluster_quiet (cs : List Char) (st : ParseSt) :
    scanCluster cs { st with verbosity := false } = (scanCluster cs st).quiet := by
  induction cs generalizing st with
  | nil => rfl
  | cons c cs ih =>
    unfold scanCluster
    by_cases hq : c = 'q'
    · simp only [if_pos hq]
      exact ih { st with verbosity := false }
    · by_cases ht : c = 't'
      · simp only [if_neg hq, if_pos ht]
        by_cases he : cs.isEmpty <;> simp [he, ClusterOut.quiet]
      · by_cases hu : c = 'u'
        · simp only [if_neg hq, if_neg ht, if_pos hu]
          by_cases he : cs.isEmpty <;> simp [he, ClusterOut.quiet]
        · simp [hq, ht, hu, ClusterOut.quiet]

/-- The option loop from a quiet state yields the same positionals and the
same timeout values, with the verbosity flag cleared: the only effect of
`-q` anywhere in the loop is `verbosity = 0` (lines 60-62). -/
theorem parseOpts_quiet (l : List String) (st : ParseSt) :
    parseOpts l { st with verbosity := false } =
      Option.map (fun q => ({ q.1 with verbosity := false }, q.2)) (parseOpts l st) := by
  generalize hn : l.length = n
  induction n using Nat.strong_induction_on generalizing l st with
  | _ n ih =>
    cases l with
    | nil => rfl
    | cons a rest =>
      unfold parseOpts
      cases hd : a.data with
      | nil => rfl
      | cons c tl =>
        cases tl with
        | nil => rfl
        | cons c2 cs =>
          by_cases hc : c = '-'
          · simp only [if_pos hc]
            by_cases hdd : c2 = '-' ∧ cs = []
            · simp [hdd]
            · simp only [if_neg hdd]
              rw [scanCluster_quiet]
              cases hsc : scanCluster (c2 :: cs) st with
              | done st2 =>
                simp only [ClusterOut.quiet]
                exact ih rest.length (by subst hn; simp) rest st2 rfl
              | argInline w arg st2 =>
                simp only [ClusterOut.quiet]
                cases hv : strtol10 arg with
                | none => rfl
                | some v =>
                  simp only []
                  rw [setOpt_quiet]
                  exact ih rest.length (by subst hn; simp) rest (setOpt w v st2) rfl
              | argNext w st2 =>
                simp only [ClusterOut.quiet]
                cases rest with
                | nil => rfl
                | cons arg rest2 =>
                  dsimp only
                  cases hv : strtol10 arg.data with
                  | none => rfl
                  | some v =>
                    dsimp only
                    rw [setOpt_quiet]
                    exact ih rest2.length (by subst hn; simp; omega) rest2
                      (setOpt w v st2) rfl
              | bad => rfl
          · simp [hc]

/-- The probe stage run quietly: same exit code, no messages. -/
theorem probeStage_quiet (st : ParseSt) (host portStr : String) (port : Int)
    (conn : ConnectRes) (sel : SelectRes) (so : SockoptRes) :
    (probeStage { st with verbosity := false } host portStr port conn sel so).exit =
      (probeStage st host portStr port conn sel so).exit ∧
    (probeStage { st with verbosity := false } host portStr port conn sel so).ub =
      (probeStage st host portStr port conn sel so).ub ∧
    (probeStage { st with verbosity := false } host portStr port conn sel so).stdout = [] ∧
    (probeStage { st with verbosity := false } host portStr port conn sel so).stderr = [] := by
  unfold probeStage
  cases conn with
  | ok => exact ⟨rfl, rfl, rfl, rfl⟩
  | fail e =>
    by_cases he : e = EINPROGRESS
    · subst he
      simp only [ne_eq, not_true_eq_false, if_false, ite_not, if_pos rfl]
      cases sel with
      | timedOut => exact ⟨rfl, rfl, rfl, rfl⟩
      | ready r w =>
        cases r <;> cases w <;>
          first
          | exact ⟨rfl, rfl, rfl, rfl⟩
          | (cases so with
             | fail e2 => exact ⟨rfl, rfl, rfl, rfl⟩
             | ok soErr =>
               by_cases hso : soErr = 0 <;> simp [hso, log, baseResult])
    · simp [he, log, baseResult]

/-- Resolution and the port check run quietly: same exit code and same
undefined-behaviour flag, no messages. -/
theorem afterParse_quiet (st : ParseSt) (pos : List String) (rok : Bool)
    (conn : ConnectRes) (sel : SelectRes) (so : SockoptRes) :
    (afterParse { st with verbosity := false } pos rok conn sel so).exit =
      (afterParse st pos rok conn sel so).exit ∧
    (afterParse { st with verbosity := false } pos rok conn sel so).ub =
      (afterParse st pos rok conn sel so).ub ∧
    (afterParse { st with verbosity := false } pos rok conn sel so).stdout = [] ∧
    (afterParse { st with verbosity := false } pos rok conn sel so).stderr = [] := by
  unfold afterParse
  cases pos with
  | nil => exact ⟨rfl, rfl, rfl, rfl⟩
  | cons hostArg pos2 =>
    cases rok with
    | false => exact ⟨rfl, rfl, rfl, by simp [log]⟩
    | true =>
      cases pos2 with
      | nil => exact ⟨rfl, rfl, rfl, rfl⟩
      | cons portArg rest =>
        dsimp only [if_true]
        cases hv : strtol10 portArg.data with
        | none => exact ⟨rfl, rfl, rfl, rfl⟩
        | some port => exact probeStage_quiet st hostArg portArg port conn sel so

/-- C8: for a valid invocation (at least host and port present, and not the
undefined-behaviour case of a missing host), inserting `-q` right after the
program name yields the identical exit code (both as raw value and as the
byte-sized process status) while suppressing every verbosity-gated stdout and
stderr message. -/
theorem quiet_mode (prog : String) (args : List String) (os : Oracle)
    (hargs : 2 ≤ args.length)
    (hub : (tcpingMain (prog :: "-q" :: args) os).ub = false) :
    (tcpingMain (prog :: "-q" :: args) os).exit = (tcpingMain (prog :: args) os).exit ∧
    exitStatus (tcpingMain (prog :: "-q" :: args) os) =
      exitStatus (tcpingMain (prog :: args) os) ∧
    (tcpingMain (prog :: "-q" :: args) os).stdout = [] ∧
    (tcpingMain (prog :: "-q" :: args) os).stderr = [] ∧
    (tcpingMain (prog :: args) os).ub = false := by
  have hq : parseOpts ("-q" :: args) initSt =
      parseOpts args { initSt with verbosity := false } := rfl
  have hl1 : ¬ (prog :: "-q" :: args).length < 3 := by simp; omega
  have hl2 : ¬ (prog :: args).length < 3 := by simp; omega
  have he : (tcpingMain (prog :: "-q" :: args) os).exit =
        (tcpingMain (prog :: args) os).exit ∧
      (tcpingMain (prog :: "-q" :: args) os).ub =
        (tcpingMain (prog :: args) os).ub ∧
      (tcpingMain (prog :: "-q" :: args) os).stdout = [] ∧
      (tcpingMain (prog :: "-q" :: args) os).stderr = [] := by
    simp only [tcpingMain, if_neg hl1, if_neg hl2, List.tail_cons, hq,
      parseOpts_quiet args initSt]
    cases hp : parseOpts args initSt with
    | none => exact ⟨rfl, rfl, rfl, rfl⟩
    | some stpos =>
      obtain ⟨st, pos⟩ := stpos
      dsimp only [Option.map]
      exact afterParse_quiet st pos os.resolveOk os.conn os.sel os.sockopt
  refine ⟨he.1, ?_, he.2.2.1, he.2.2.2, by rw [← he.2.1]; exact hub⟩
  unfold exitStatus
  rw [he.1]

/-- Witness for `quiet_mode`: `tcping -q h 80` against an oracle with an
immediately successful connect exits 0, exactly like `tcping h 80`, and
prints nothing. -/
theorem quiet_mode_witness :
    2 ≤ (["h", "80"] : List String).length ∧
    ((tcpingMain ["tcping", "-q", "h", "80"] { osConnFail with conn := .ok }).ub = false ∧
     (tcpingMain ["tcping", "-q", "h", "80"] { osConnFail with conn := .ok }).exit =
       (tcpingMain ["tcping", "h", "80"] { osConnFail with conn := .ok }).exit ∧
     exitStatus (tcpingMain ["tcping", "-q", "h", "80"] { osConnFail with conn := .ok }) =
       exitStatus (tcpingMain ["tcping", "h", "80"] { osConnFail with conn := .ok }) ∧
     (tcpingMain ["tcping", "-q", "h", "80"] { osConnFail with conn := .ok }).stdout = [] ∧
     (tcpingMain ["tcping", "-q", "h", "80"] { osConnFail with conn := .ok }).stderr = [] ∧
     (tcpingMain ["tcping", "h", "80"] { osConnFail with conn := .ok }).ub = false) :=
  ⟨by decide,
   by decide,
   quiet_mode "tcping" ["h", "80"] { osConnFail with conn := .ok }
     (by decide) (by decide)⟩

end Tcping
